import Mathlib

/-!
Verification of the STAR radiation monitor firmware against its
natural-language specification.

The development shallowly embeds the C sources:
  * geiger.c (final revision): the 60-slot per-second ring buffer, the
    two-phase pulse/dead-time interrupt, the HV switch and the reset routine;
  * star.c (final revision): the per-second control-loop tick with the
    altitude-hysteresis HV decision and the power-on self test;
  * MS5607.c / PiSPI.c: the sensor compensation pipeline, the altitude
    formula and the SPI inter-byte delay discipline of altimeterADC.

Machine integers are modelled as Nat/Int with explicit wrap-around where the
C code can overflow (the unsigned 64-bit timestamp subtraction in the pulse
interrupt).  C double arithmetic on the small decimal quantities involved is
modelled exactly over the rationals, and the altitude formula over the reals.
-/

/- ===================== geiger.c : state and buffer ===================== -/

/-- Index into the 60-slot per-second ring: seconds mod 60, as computed by
the C code (array size 60). -/
def secIdx (seconds : Nat) : Fin 60 :=
  ⟨seconds % 60, Nat.mod_lt seconds (by decide)⟩

/-- The mutable state of geiger.c: the active second index, the per-second
counts array, the per-second dead-time totals and dead-time event counts,
the two edge timestamps (nanoseconds, t1 = 0 meaning waiting for a falling
edge), and the LED budget. -/
@[ext] structure GeigerState where
  secNum : Fin 60
  sec : Fin 60 → Int
  deadTime : Fin 60 → Rat
  deadCounts : Fin 60 → Int
  t1 : Nat
  t2 : Nat
  ledTime : Int
deriving DecidableEq

/-- geiger.c getSecNum: read the active second index. -/
def getSecNum (s : GeigerState) : Fin 60 :=
  s.secNum

/-- geiger.c setSecNum: numSecs = seconds % size; if numSecs differs from the
active index, zero that slot (counts, dead time, dead-time events); then make
it active. -/
def setSecNum (seconds : Nat) (s : GeigerState) : GeigerState :=
  let numSecs := secIdx seconds
  if numSecs ≠ s.secNum then
    { s with
      sec := Function.update s.sec numSecs 0
      deadTime := Function.update s.deadTime numSecs 0
      deadCounts := Function.update s.deadCounts numSecs 0
      secNum := numSecs }
  else
    { s with secNum := numSecs }

/-- Unsigned 64-bit subtraction a - b as performed on the unsigned long long
timestamps of geiger.c: the difference modulo 2^64. -/
def wsub (a b : Nat) : Nat :=
  (a + (2 ^ 64 - b % 2 ^ 64)) % 2 ^ 64

/-- geiger.c flashTime: LED flash budget added per detected count (ms). -/
def flashTime : Int := 5

/-- geiger.c countInterrupt, as a function of the timestamp now delivered by
the monotonic clock.  t1 = 0: falling edge, count the pulse, light the LED,
record t1 = t2 = now.  t1 = t2 (nonzero): rising edge, set t2 = now and take
dt = (t2 - t1) in unsigned 64-bit arithmetic, in seconds; if 0 < dt and
dt is at most 0.005 s, accumulate dt and one dead-time event into the active
slot and reset t1 = 0; if dt exceeds 0.005 s, resynchronize t1 = t2; if dt is
not positive (only possible as dt = 0, because the subtraction wraps), leave
the rest unchanged.  Any other state is left untouched. -/
def countInterrupt (now : Nat) (s : GeigerState) : GeigerState :=
  if s.t1 = 0 then
    { s with
      sec := Function.update s.sec s.secNum (s.sec s.secNum + 1)
      ledTime := s.ledTime + flashTime
      t1 := now
      t2 := now }
  else if s.t1 = s.t2 then
    let dtNs := wsub now s.t1
    let dt : Rat := (dtNs : Rat) / 1000000000
    if 0 < dt then
      if dt ≤ 5 / 1000 then
        { s with
          t2 := now
          deadTime := Function.update s.deadTime s.secNum (s.deadTime s.secNum + dt)
          deadCounts := Function.update s.deadCounts s.secNum (s.deadCounts s.secNum + 1)
          t1 := 0 }
      else
        { s with t2 := now, t1 := now }
    else
      { s with t2 := now }
  else
    s

/-- geiger.c getIndex: numIndex % size with the C truncated remainder, then
add size if the result is negative. -/
def getIndex (numIndex : Int) : Int :=
  if numIndex.tmod 60 < 0 then 60 + numIndex.tmod 60 else numIndex.tmod 60

/-- geiger.c geigerReset: setSecNum(0), zero every element of the counts
array (the loop over i = 0..59), and clear both edge timestamps. -/
def geigerReset (s : GeigerState) : GeigerState :=
  let s1 := setSecNum 0 s
  { s1 with sec := fun _ => 0, t1 := 0, t2 := 0 }

/- ===================== getIndex arithmetic (C8) ===================== -/

/-- The C truncated remainder by 60 of a negative dividend is the negation of
the remainder of the negation. -/
theorem tmod_sixty_neg (i : Int) : (-i).tmod 60 = -(i.tmod 60) := by
  rw [Int.tmod_def, Int.tmod_def, Int.neg_tdiv]
  ring

/-- Lower bound of the C truncated remainder by 60. -/
theorem tmod_sixty_lb (i : Int) : -60 < i.tmod 60 := by
  rcases le_or_lt 0 i with h | h
  · have := Int.tmod_nonneg (60 : Int) h
    omega
  · have h1 : (-i).tmod 60 < 60 := Int.tmod_lt_of_pos (-i) (by decide)
    rw [tmod_sixty_neg] at h1
    omega

/-- Claim C8: for every integer i, getIndex i equals the true modulus
((i % 60) + 60) % 60 (written with the C truncated remainder, and equal to
the mathematical i mod 60); consequently getIndex i = getIndex (i + 60) and
0 <= getIndex i < 60. -/
theorem C8_getIndex_true_modulus (i : Int) :
    getIndex i = ((i.tmod 60) + 60).tmod 60
    ∧ getIndex i = i % 60
    ∧ getIndex i = getIndex (i + 60)
    ∧ 0 ≤ getIndex i ∧ getIndex i < 60 := by
  have hub : i.tmod 60 < 60 := Int.tmod_lt_of_pos i (by decide)
  have hlb : -60 < i.tmod 60 := tmod_sixty_lb i
  have hub2 : (i + 60).tmod 60 < 60 := Int.tmod_lt_of_pos (i + 60) (by decide)
  have hlb2 : -60 < (i + 60).tmod 60 := tmod_sixty_lb (i + 60)
  have hdef : 60 * i.tdiv 60 + i.tmod 60 = i := Int.tdiv_add_tmod i 60
  have hdef2 : 60 * (i + 60).tdiv 60 + (i + 60).tmod 60 = i + 60 :=
    Int.tdiv_add_tmod (i + 60) 60
  have hnn : ((i.tmod 60) + 60).tmod 60 = ((i.tmod 60) + 60) % 60 :=
    Int.tmod_eq_emod (by omega) (by decide)
  unfold getIndex
  rw [hnn]
  split_ifs <;> omega

/- ===================== setSecNum and geigerReset (C9, C10) ============= -/

/-- Claim C9: setSecNum is idempotent: a second consecutive call with the
same seconds value leaves the state unchanged (it does not re-zero the
slot), while a call whose index seconds mod 60 differs from the active index
zeroes exactly that slot's counts, dead time and dead-time events before
making it active. -/
theorem C9_setSecNum_idempotent (st : GeigerState) (s : Nat) :
    setSecNum s (setSecNum s st) = setSecNum s st
    ∧ (secIdx s ≠ st.secNum →
        setSecNum s st =
          { st with
            sec := Function.update st.sec (secIdx s) 0
            deadTime := Function.update st.deadTime (secIdx s) 0
            deadCounts := Function.update st.deadCounts (secIdx s) 0
            secNum := secIdx s }) := by
  constructor
  · by_cases h : secIdx s = st.secNum
    · simp [setSecNum, h]
    · simp [setSecNum, h]
  · intro h
    simp [setSecNum, h]

/-- Witness for C9 at a concrete state whose active index is 7 and whose
slot 5 holds nonzero data, advanced to second 65 (index 5). -/
theorem C9_setSecNum_idempotent_witness :
    (setSecNum 65 (setSecNum 65
        ⟨7, Function.update (fun _ => 0) 5 3, Function.update (fun _ => 0) 5 3,
         Function.update (fun _ => 0) 5 2, 4, 4, 0⟩)
      = setSecNum 65
        ⟨7, Function.update (fun _ => 0) 5 3, Function.update (fun _ => 0) 5 3,
         Function.update (fun _ => 0) 5 2, 4, 4, 0⟩)
    ∧ (setSecNum 65
        ⟨7, Function.update (fun _ => 0) 5 3, Function.update (fun _ => 0) 5 3,
         Function.update (fun _ => 0) 5 2, 4, 4, 0⟩
      = { secNum := secIdx 65
          sec := Function.update (Function.update (fun _ => 0) 5 3) (secIdx 65) 0
          deadTime := Function.update (Function.update (fun _ => 0) 5 3) (secIdx 65) 0
          deadCounts := Function.update (Function.update (fun _ => 0) 5 2) (secIdx 65) 0
          t1 := 4, t2 := 4, ledTime := 0 }) :=
  ⟨(C9_setSecNum_idempotent _ 65).1,
   (C9_setSecNum_idempotent _ 65).2 (by decide)⟩

/-- Claim C10: after geigerReset every counts slot is zero and both edge
timestamps are zero, while the dead-time totals and dead-time event counts
are unchanged except possibly slot 0, which is cleared exactly when the
active index was nonzero at the time of the call (via the embedded
setSecNum(0)). -/
theorem C10_geigerReset_frame (st : GeigerState) :
    (∀ i, (geigerReset st).sec i = 0)
    ∧ (geigerReset st).t1 = 0
    ∧ (geigerReset st).t2 = 0
    ∧ (st.secNum = secIdx 0 →
        (geigerReset st).deadTime = st.deadTime
        ∧ (geigerReset st).deadCounts = st.deadCounts)
    ∧ (st.secNum ≠ secIdx 0 →
        (geigerReset st).deadTime = Function.update st.deadTime (secIdx 0) 0
        ∧ (geigerReset st).deadCounts = Function.update st.deadCounts (secIdx 0) 0) := by
  refine ⟨fun i => rfl, rfl, rfl, fun h => ?_, fun h => ?_⟩
  · constructor <;> simp [geigerReset, setSecNum, h]
  · have h2 : secIdx 0 ≠ st.secNum := fun hc => h hc.symm
    constructor <;> simp [geigerReset, setSecNum, h2]

/-- Witness for C10 at a concrete state with active index 9 and nonzero
dead-time data in slots 0 and 3: the reset clears slot 0 and keeps slot 3. -/
theorem C10_geigerReset_frame_witness :
    (∀ i, (geigerReset
        ⟨9, Function.update (fun _ => 0) 2 5,
         Function.update (Function.update (fun _ => 0) 0 2) 3 1,
         Function.update (Function.update (fun _ => 0) 0 2) 3 1, 77, 77, 0⟩).sec i = 0)
    ∧ (geigerReset
        ⟨9, Function.update (fun _ => 0) 2 5,
         Function.update (Function.update (fun _ => 0) 0 2) 3 1,
         Function.update (Function.update (fun _ => 0) 0 2) 3 1, 77, 77, 0⟩).deadTime
      = Function.update
          (Function.update (Function.update (fun _ => 0) 0 2) 3 1) (secIdx 0) 0
    ∧ (geigerReset
        ⟨9, Function.update (fun _ => 0) 2 5,
         Function.update (Function.update (fun _ => 0) 0 2) 3 1,
         Function.update (Function.update (fun _ => 0) 0 2) 3 1, 77, 77, 0⟩).deadCounts
      = Function.update
          (Function.update (Function.update (fun _ => 0) 0 2) 3 1) (secIdx 0) 0 :=
  ⟨(C10_geigerReset_frame _).1,
   ((C10_geigerReset_frame _).2.2.2.2 (by decide)).1,
   ((C10_geigerReset_frame _).2.2.2.2 (by decide)).2⟩

/- ===================== star.c : control loop (C1, C2) ================== -/

/-- star.c geigerAlt (final revision): minimum altitude in metres before the
Geiger circuit turns on. -/
def geigerAlt : Int := 100

/-- star.c deadBand (final revision): hysteresis band in metres below
geigerAlt within which HV is not switched. -/
def deadBand : Int := 10

/-- The control-loop state of star.c main: the HV flag, the pending
power-on-self-test flag, and the geiger.c state. -/
@[ext] structure ControlState where
  hv : Bool
  doPost : Bool
  g : GeigerState
deriving DecidableEq

/-- One iteration of the star.c main loop, restricted to the state it
mutates, fed the computed altitude and the current whole second.  The loop
advances the count timer with setSecNum(curSec), then: if HV is off and
altitude > geigerAlt it turns HV on and marks the self test done; else if HV
is off, the self test is pending and altitude < geigerAlt - deadBand it runs
the POST (HV on for 30 s, HV off, geigerReset, self test marked done); else
if HV is on and altitude < geigerAlt - deadBand it turns HV off. -/
def mainTick (altitude : Rat) (curSec : Nat) (st : ControlState) : ControlState :=
  let g1 := setSecNum curSec st.g
  if st.hv = false then
    if altitude > (geigerAlt : Rat) then
      { st with hv := true, doPost := false, g := g1 }
    else if st.doPost ∧ altitude < ((geigerAlt - deadBand : Int) : Rat) then
      { st with hv := false, doPost := false, g := geigerReset g1 }
    else
      { st with g := g1 }
  else if altitude < ((geigerAlt - deadBand : Int) : Rat) then
    { st with hv := false, g := g1 }
  else
    { st with g := g1 }

/-- Run the control loop over a list of per-tick altitudes, the seconds
counter advancing by one each tick, and record the HV state after each
tick. -/
def runTicks : ControlState → Nat → List Rat → List Bool
  | _, _, [] => []
  | st, n, a :: rest =>
    let st1 := mainTick a n st
    st1.hv :: runTicks st1 (n + 1) rest

/-- Number of off-to-on transitions in an HV trace, given the state before
the first entry. -/
def countRises : Bool → List Bool → Nat
  | _, [] => 0
  | prev, b :: rest => (if prev = false ∧ b = true then 1 else 0) + countRises b rest

/-- Number of on-to-off transitions in an HV trace, given the state before
the first entry. -/
def countFalls : Bool → List Bool → Nat
  | _, [] => 0
  | prev, b :: rest => (if prev = true ∧ b = false then 1 else 0) + countFalls b rest

/-- The all-zero geiger state. -/
def g0 : GeigerState :=
  ⟨0, fun _ => 0, fun _ => 0, fun _ => 0, 0, 0, 0⟩

/-- Claim C1: starting with HV off and the self test already performed, with
threshold 100 m and deadband 10 m, the altitude sequence
[50, 95, 101, 150, 105, 95, 88, 70] produces the HV sequence
[off, off, on, on, on, on, off, off], with exactly one off-to-on and one
on-to-off transition; in particular the tick at 95 m with HV on does not
turn HV off. -/
theorem C1_hv_hysteresis_scenario :
    runTicks ⟨false, false, g0⟩ 0 [50, 95, 101, 150, 105, 95, 88, 70]
      = [false, false, true, true, true, true, false, false]
    ∧ countRises false
        (runTicks ⟨false, false, g0⟩ 0 [50, 95, 101, 150, 105, 95, 88, 70]) = 1
    ∧ countFalls false
        (runTicks ⟨false, false, g0⟩ 0 [50, 95, 101, 150, 105, 95, 88, 70]) = 1 := by
  decide

/-- A concrete control state for the Armed-to-Active transition: HV off,
self test done, active index 0, pulse counts in slot 3, dead-time data in
slot 2, edge timestamps 42 (waiting for a rising edge). -/
def stArmed : ControlState :=
  ⟨false, false,
   ⟨0, Function.update (fun _ => 0) 3 7, Function.update (fun _ => 0) 2 1,
    Function.update (fun _ => 0) 2 4, 42, 42, 0⟩⟩

/-- Counterexample to claim C2: a tick at altitude 150 with HV off turns HV
on, but the counting state is not reset: slot 3 still holds 7 counts, slot 2
still holds its dead-time data, and the edge timestamps still hold 42, so
neither the slots nor the edge state are cleared on this transition. -/
theorem C2_no_reset_counterexample :
    (mainTick 150 5 stArmed).hv = true
    ∧ (mainTick 150 5 stArmed).g.sec 3 = 7
    ∧ (mainTick 150 5 stArmed).g.deadCounts 2 = 4
    ∧ (mainTick 150 5 stArmed).g.deadTime 2 = 1
    ∧ (mainTick 150 5 stArmed).g.t1 = 42
    ∧ (mainTick 150 5 stArmed).g.t2 = 42 := by
  decide

/-- Claim C2 as amended: on a control-loop tick with HV off and altitude
above the threshold, the loop turns HV on and marks the self test done, but
does not reset the counting state: apart from the ordinary per-tick
setSecNum(curSec) advance, the geiger state (slots and edge timestamps) is
left exactly as it was; geigerReset is not called on this transition. -/
theorem C2_armed_to_active_no_reset (st : ControlState) (altitude : Rat) (curSec : Nat)
    (hOff : st.hv = false) (hAlt : altitude > (geigerAlt : Rat)) :
    mainTick altitude curSec st =
      { st with hv := true, doPost := false, g := setSecNum curSec st.g } := by
  simp [mainTick, hOff, hAlt]

/-- Witness for the amended C2 at the concrete Armed state and altitude
150 m. -/
theorem C2_armed_to_active_no_reset_witness :
    stArmed.hv = false
    ∧ (150 : Rat) > (geigerAlt : Rat)
    ∧ mainTick 150 5 stArmed =
        { stArmed with hv := true, doPost := false, g := setSecNum 5 stArmed.g } :=
  ⟨rfl, by decide, C2_armed_to_active_no_reset stArmed 150 5 rfl (by decide)⟩

/- ===================== countInterrupt (C3, C4) ========================= -/

/-- The rational dt in seconds is positive exactly when the nanosecond count
is nonzero. -/
theorem dt_pos_iff (k : Nat) : (0 : Rat) < (k : Rat) / 1000000000 ↔ 0 < k := by
  rw [div_pos_iff]
  constructor
  · rintro (⟨h, _⟩ | ⟨_, h⟩)
    · exact_mod_cast h
    · norm_num at h
  · intro h
    exact Or.inl ⟨by exact_mod_cast h, by norm_num⟩

/-- The rational dt in seconds is at most 0.005 exactly when the nanosecond
count is at most 5000000. -/
theorem dt_le_iff (k : Nat) : (k : Rat) / 1000000000 ≤ 5 / 1000 ↔ k ≤ 5000000 := by
  rw [div_le_div_iff₀ (by norm_num) (by norm_num)]
  constructor
  · intro h
    have h2 : (k : Rat) ≤ 5000000 := by linarith
    exact_mod_cast h2
  · intro h
    have h2 : (k : Rat) ≤ 5000000 := by exact_mod_cast h
    linarith

/-- Evaluation of countInterrupt on a falling edge (t1 = 0). -/
theorem countInterrupt_fall_eq (now : Nat) (s : GeigerState) (h : s.t1 = 0) :
    countInterrupt now s =
      { s with
        sec := Function.update s.sec s.secNum (s.sec s.secNum + 1)
        ledTime := s.ledTime + flashTime
        t1 := now
        t2 := now } := by
  simp [countInterrupt, h]

/-- Evaluation of countInterrupt on a rising edge (t1 = t2, nonzero), with
the rational comparisons of the source reduced to the wrapped nanosecond
difference. -/
theorem countInterrupt_rising_eq (now : Nat) (s : GeigerState)
    (h1 : s.t1 ≠ 0) (h2 : s.t1 = s.t2) :
    countInterrupt now s =
      if wsub now s.t1 = 0 then { s with t2 := now }
      else if wsub now s.t1 ≤ 5000000 then
        { s with
          t2 := now
          deadTime := Function.update s.deadTime s.secNum
            (s.deadTime s.secNum + (wsub now s.t1 : Rat) / 1000000000)
          deadCounts := Function.update s.deadCounts s.secNum (s.deadCounts s.secNum + 1)
          t1 := 0 }
      else { s with t2 := now, t1 := now } := by
  unfold countInterrupt
  rw [if_neg h1, if_pos h2]
  rcases Nat.eq_zero_or_pos (wsub now s.t1) with h | h
  · have hdt0 : ¬ (0 : Rat) < (wsub now s.t1 : Rat) / 1000000000 := by
      rw [dt_pos_iff]
      omega
    rw [if_neg hdt0, if_pos h]
  · have hdtp : (0 : Rat) < (wsub now s.t1 : Rat) / 1000000000 := (dt_pos_iff _).mpr h
    rw [if_pos hdtp, if_neg (by omega : ¬ wsub now s.t1 = 0)]
    by_cases hle : wsub now s.t1 ≤ 5000000
    · rw [if_pos ((dt_le_iff _).mpr hle), if_pos hle]
    · rw [if_neg (fun hc => hle ((dt_le_iff _).mp hc)), if_neg hle]

/-- Evaluation of countInterrupt on an accepted rising edge: timestamps both
below 2^64, the new timestamp later than t1 by at most 5000000 ns. -/
theorem countInterrupt_accept_eq (now : Nat) (s : GeigerState)
    (h1 : s.t1 ≠ 0) (h2 : s.t1 = s.t2) (h3 : s.t1 < now)
    (h4 : now - s.t1 ≤ 5000000) (h5 : now < 2 ^ 64) :
    countInterrupt now s =
      { s with
        t2 := now
        deadTime := Function.update s.deadTime s.secNum
          (s.deadTime s.secNum + ((now - s.t1 : Nat) : Rat) / 1000000000)
        deadCounts := Function.update s.deadCounts s.secNum (s.deadCounts s.secNum + 1)
        t1 := 0 } := by
  have hw : wsub now s.t1 = now - s.t1 := by
    unfold wsub
    omega
  rw [countInterrupt_rising_eq now s h1 h2, hw,
    if_neg (by omega : ¬ now - s.t1 = 0), if_pos h4]

/-- A concrete detector state waiting for a rising edge: both timestamps
hold 1000000000 ns. -/
def sRising : GeigerState :=
  ⟨0, fun _ => 0, fun _ => 0, fun _ => 0, 1000000000, 1000000000, 0⟩

/-- Counterexample to claim C3: a rising-edge invocation whose new timestamp
5 precedes t1 = 1000000000 (dt negative).  The claim says all detector and
slot state is left unchanged, but the unsigned 64-bit subtraction wraps to a
huge positive value, the over-ceiling branch runs, and the detector
resynchronizes t1 = t2 = 5. -/
theorem C3_negative_dt_counterexample :
    countInterrupt 5 sRising ≠ sRising
    ∧ (countInterrupt 5 sRising).t1 = 5
    ∧ (countInterrupt 5 sRising).t2 = 5 := by
  have h := countInterrupt_rising_eq 5 sRising (by decide) rfl
  rw [if_neg (by decide), if_neg (by decide)] at h
  refine ⟨?_, by rw [h], by rw [h]⟩
  rw [h]
  decide

/-- Claim C3 as amended: on a rising-edge invocation (t1 = t2, nonzero) with
timestamps below 2^64 and dt the mathematical difference now - t1: if
0 < dt and dt is at most the 5000000 ns ceiling, dt (in seconds) is added to
the dead-time total and the dead-time event count of the currently active
slot is incremented and the detector returns to waiting-falling (t1 = 0); if
dt exceeds the ceiling, the detector sets t1 = t2 = now and remains
waiting-rising without counting; if dt = 0 the state is unchanged apart from
rewriting t2 with its own value; if dt is negative (and not within 5000000
of wrapping all the way around), the unsigned subtraction wraps above the
ceiling and the detector resynchronizes t1 = t2 = now rather than leaving
the state unchanged. -/
theorem C3_rising_edge_dt_cases (s : GeigerState) (now : Nat)
    (h1 : s.t1 ≠ 0) (h2 : s.t1 = s.t2) (hnow : now < 2 ^ 64) (ht : s.t1 < 2 ^ 64) :
    ((0 : Int) < (now : Int) - (s.t1 : Int) ∧ (now : Int) - (s.t1 : Int) ≤ 5000000 →
        countInterrupt now s =
          { s with
            t2 := now
            deadTime := Function.update s.deadTime s.secNum
              (s.deadTime s.secNum + ((now - s.t1 : Nat) : Rat) / 1000000000)
            deadCounts := Function.update s.deadCounts s.secNum (s.deadCounts s.secNum + 1)
            t1 := 0 })
    ∧ ((5000000 : Int) < (now : Int) - (s.t1 : Int) →
        countInterrupt now s = { s with t2 := now, t1 := now })
    ∧ ((now : Int) - (s.t1 : Int) = 0 → countInterrupt now s = { s with t2 := now })
    ∧ ((now : Int) - (s.t1 : Int) < 0 ∧ (s.t1 : Int) - (now : Int) < 2 ^ 64 - 5000000 →
        countInterrupt now s = { s with t2 := now, t1 := now }) := by
  refine ⟨fun ⟨ha, hb⟩ => ?_, fun ha => ?_, fun ha => ?_, fun ⟨ha, hb⟩ => ?_⟩
  · exact countInterrupt_accept_eq now s h1 h2 (by omega) (by omega) hnow
  · have hw : wsub now s.t1 = now - s.t1 := by
      unfold wsub
      omega
    rw [countInterrupt_rising_eq now s h1 h2, hw,
      if_neg (by omega : ¬ now - s.t1 = 0), if_neg (by omega : ¬ now - s.t1 ≤ 5000000)]
  · have hw : wsub now s.t1 = 0 := by
      unfold wsub
      omega
    rw [countInterrupt_rising_eq now s h1 h2, hw, if_pos rfl]
  · have hw : wsub now s.t1 = 2 ^ 64 + now - s.t1 := by
      unfold wsub
      omega
    rw [countInterrupt_rising_eq now s h1 h2, hw,
      if_neg (by omega : ¬ 2 ^ 64 + now - s.t1 = 0),
      if_neg (by omega : ¬ 2 ^ 64 + now - s.t1 ≤ 5000000)]

/-- Witness for the amended C3 at the concrete waiting-rising state and an
accepted new timestamp 1000000500 (dt = 500 ns). -/
theorem C3_rising_edge_dt_cases_witness :
    (sRising.t1 ≠ 0 ∧ sRising.t1 = sRising.t2
      ∧ (1000000500 : Nat) < 2 ^ 64 ∧ sRising.t1 < 2 ^ 64
      ∧ (0 : Int) < (1000000500 : Nat) - (sRising.t1 : Int)
      ∧ ((1000000500 : Nat) : Int) - (sRising.t1 : Int) ≤ 5000000)
    ∧ countInterrupt 1000000500 sRising =
        { sRising with
          t2 := 1000000500
          deadTime := Function.update sRising.deadTime sRising.secNum
            (sRising.deadTime sRising.secNum
              + ((1000000500 - sRising.t1 : Nat) : Rat) / 1000000000)
          deadCounts := Function.update sRising.deadCounts sRising.secNum
            (sRising.deadCounts sRising.secNum + 1)
          t1 := 0 } :=
  ⟨⟨by decide, rfl, by decide, by decide, by decide, by decide⟩,
   (C3_rising_edge_dt_cases sRising 1000000500 (by decide) rfl (by decide) (by decide)).1
     ⟨by decide, by decide⟩⟩

/-- Edge timestamps (ns) of the C4 pulse train: three pulses whose
falling-to-rising intervals are 0.0003 s, 0.0009 s and 0.0002 s, the pulses
100 ms apart. -/
def c4Edges : List Nat :=
  [1000000000, 1000300000, 1100000000, 1100900000, 1200000000, 1200200000]

/-- Detector state after feeding the C4 pulse train to countInterrupt,
starting from the reset state. -/
def c4Final : GeigerState :=
  c4Edges.foldl (fun s t => countInterrupt t s) (geigerReset g0)

/-- Total dead-time event count over all 60 slots. -/
def totalDeadCounts (s : GeigerState) : Int :=
  ((List.finRange 60).map s.deadCounts).sum

/-- State after the first falling edge of the C4 train. -/
def c4s1 : GeigerState :=
  { g0 with
    sec := Function.update g0.sec g0.secNum (g0.sec g0.secNum + 1)
    ledTime := g0.ledTime + flashTime
    t1 := 1000000000
    t2 := 1000000000 }

/-- State after the first rising edge of the C4 train (0.0003 s accepted). -/
def c4s2 : GeigerState :=
  { c4s1 with
    t2 := 1000300000
    deadTime := Function.update c4s1.deadTime c4s1.secNum
      (c4s1.deadTime c4s1.secNum + ((1000300000 - c4s1.t1 : Nat) : Rat) / 1000000000)
    deadCounts := Function.update c4s1.deadCounts c4s1.secNum (c4s1.deadCounts c4s1.secNum + 1)
    t1 := 0 }

/-- State after the second falling edge of the C4 train. -/
def c4s3 : GeigerState :=
  { c4s2 with
    sec := Function.update c4s2.sec c4s2.secNum (c4s2.sec c4s2.secNum + 1)
    ledTime := c4s2.ledTime + flashTime
    t1 := 1100000000
    t2 := 1100000000 }

/-- State after the second rising edge of the C4 train (0.0009 s, also
accepted because the source ceiling is 0.005 s). -/
def c4s4 : GeigerState :=
  { c4s3 with
    t2 := 1100900000
    deadTime := Function.update c4s3.deadTime c4s3.secNum
      (c4s3.deadTime c4s3.secNum + ((1100900000 - c4s3.t1 : Nat) : Rat) / 1000000000)
    deadCounts := Function.update c4s3.deadCounts c4s3.secNum (c4s3.deadCounts c4s3.secNum + 1)
    t1 := 0 }

/-- State after the third falling edge of the C4 train. -/
def c4s5 : GeigerState :=
  { c4s4 with
    sec := Function.update c4s4.sec c4s4.secNum (c4s4.sec c4s4.secNum + 1)
    ledTime := c4s4.ledTime + flashTime
    t1 := 1200000000
    t2 := 1200000000 }

/-- State after the third rising edge of the C4 train (0.0002 s accepted). -/
def c4s6 : GeigerState :=
  { c4s5 with
    t2 := 1200200000
    deadTime := Function.update c4s5.deadTime c4s5.secNum
      (c4s5.deadTime c4s5.secNum + ((1200200000 - c4s5.t1 : Nat) : Rat) / 1000000000)
    deadCounts := Function.update c4s5.deadCounts c4s5.secNum (c4s5.deadCounts c4s5.secNum + 1)
    t1 := 0 }

/-- The C4 pulse train evaluates to the state c4s6. -/
theorem c4Final_eq : c4Final = c4s6 := by
  have h1 : countInterrupt 1000000000 g0 = c4s1 :=
    countInterrupt_fall_eq 1000000000 g0 (by decide)
  have h2 : countInterrupt 1000300000 c4s1 = c4s2 :=
    countInterrupt_accept_eq 1000300000 c4s1 (by decide) (by decide) (by decide)
      (by decide) (by decide)
  have h3 : countInterrupt 1100000000 c4s2 = c4s3 :=
    countInterrupt_fall_eq 1100000000 c4s2 (by decide)
  have h4 : countInterrupt 1100900000 c4s3 = c4s4 :=
    countInterrupt_accept_eq 1100900000 c4s3 (by decide) (by decide) (by decide)
      (by decide) (by decide)
  have h5 : countInterrupt 1200000000 c4s4 = c4s5 :=
    countInterrupt_fall_eq 1200000000 c4s4 (by decide)
  have h6 : countInterrupt 1200200000 c4s5 = c4s6 :=
    countInterrupt_accept_eq 1200200000 c4s5 (by decide) (by decide) (by decide)
      (by decide) (by decide)
  unfold c4Final c4Edges
  simp only [List.foldl]
  rw [show geigerReset g0 = g0 from by decide, h1, h2, h3, h4, h5, h6]

/-- Counterexample to claim C4: the pulse train with falling-to-rising
intervals 0.0003 s, 0.0009 s, 0.0002 s produces three accepted dead-time
events, not exactly one: the source plausibility ceiling is 0.005 s, so the
0.0009 s interval is not rejected. -/
theorem C4_deadtime_count_counterexample :
    totalDeadCounts c4Final = 3 ∧ totalDeadCounts c4Final ≠ 1 := by
  rw [c4Final_eq]
  constructor <;> decide

/-- Claim C4 as amended: the pulse train with falling-to-rising intervals
0.0003 s, 0.0009 s and 0.0002 s produces exactly three accepted dead-time
events (the source ceiling is 0.005 s, so 0.0009 s is accepted rather than
rejected), leaves the edge state resynchronized waiting for a falling edge
(t1 = 0, no pending stale timestamp), and leaves no negative count in any
slot. -/
theorem C4_deadtime_scenario :
    totalDeadCounts c4Final = 3
    ∧ c4Final.t1 = 0
    ∧ (∀ i, 0 ≤ c4Final.sec i ∧ 0 ≤ c4Final.deadCounts i) := by
  rw [c4Final_eq]
  refine ⟨by decide, by decide, fun i => ⟨?_, ?_⟩⟩ <;> revert i <;> decide

/- ============== MS5607.c : compensation pipeline (C7) ================== -/

/-- MS5607.c calcDT: difference between the raw temperature reading and the
reference temperature coefficient, in double arithmetic (exact here over the
rationals); the raw reading is passed explicitly. -/
def calcDT (coeffs : Fin 8 → Nat) (tRaw : Nat) : Rat :=
  (tRaw : Rat) - (coeffs 5 : Rat) * 2 ^ 8

/-- MS5607.c calcOffset: offset at the actual temperature. -/
def calcOffset (coeffs : Fin 8 → Nat) (tRaw : Nat) : Rat :=
  (coeffs 2 : Rat) * 2 ^ 17 + calcDT coeffs tRaw * (coeffs 4 : Rat) / 2 ^ 6

/-- MS5607.c calcSens: sensitivity at the actual temperature. -/
def calcSens (coeffs : Fin 8 → Nat) (tRaw : Nat) : Rat :=
  (coeffs 1 : Rat) * 2 ^ 16 + calcDT coeffs tRaw * (coeffs 3 : Rat) / 2 ^ 7

/-- MS5607.c firstOrderT: first-order compensated temperature (deg C). -/
def firstOrderT (coeffs : Fin 8 → Nat) (tRaw : Nat) : Rat :=
  (2000 + calcDT coeffs tRaw * (coeffs 6 : Rat) / 2 ^ 23) / 100

/-- MS5607.c firstOrderP: first-order compensated pressure (mbar); the raw
pressure reading is passed explicitly. -/
def firstOrderP (coeffs : Fin 8 → Nat) (tRaw pRaw : Nat) : Rat :=
  ((pRaw : Rat) * calcSens coeffs tRaw / 2 ^ 21 - calcOffset coeffs tRaw) / 2 ^ 15 / 100

/-- MS5607.c secondOrderP: second-order compensated pressure.  Below 20 C the
corrections temp2, offset2, sens2 are computed (with further terms below
-15 C) and subtracted from temperature, offset and sensitivity; at or above
20 C all three are zero.  The pressure is then recomputed with the corrected
offset and sensitivity. -/
def secondOrderP (coeffs : Fin 8 → Nat) (tRaw pRaw : Nat) : Rat :=
  let temp := firstOrderT coeffs tRaw
  let dT := calcDT coeffs tRaw
  let offset := calcOffset coeffs tRaw
  let sens := calcSens coeffs tRaw
  let corr : Rat × Rat × Rat :=
    if temp < 20 then
      let temp2 := dT ^ 2 / 2 ^ 31
      let offset2 := 61 * (temp - 2000) ^ 2 / 2 ^ 4
      let sens2 := 2 * (temp - 2000) ^ 2
      if temp < -15 then
        (temp2, offset2 + 15 * (temp + 1500) ^ 2, sens2 + 8 * (temp + 1500) ^ 2)
      else
        (temp2, offset2, sens2)
    else
      (0, 0, 0)
  ((pRaw : Rat) * (sens - corr.2.2) / 2 ^ 21 - (offset - corr.2.1)) / 2 ^ 15 / 100

/-- Claim C7: for every calibration-coefficient array and raw sample, when
the first-order temperature is at least 20 deg C the second-order
compensated pressure equals the first-order compensated pressure: the
corrections are identically zero and the computation passes through. -/
theorem C7_secondOrderP_passthrough (coeffs : Fin 8 → Nat) (tRaw pRaw : Nat)
    (h : 20 ≤ firstOrderT coeffs tRaw) :
    secondOrderP coeffs tRaw pRaw = firstOrderP coeffs tRaw pRaw := by
  have hlt : ¬ firstOrderT coeffs tRaw < 20 := not_lt.mpr h
  simp [secondOrderP, firstOrderP, hlt]

/-- Witness for C7 with the all-zero coefficient array and zero raw sample,
whose first-order temperature is exactly 20 deg C. -/
theorem C7_secondOrderP_passthrough_witness :
    (20 : Rat) ≤ firstOrderT (fun _ => 0) 0
    ∧ secondOrderP (fun _ => 0) 0 0 = firstOrderP (fun _ => 0) 0 0 :=
  ⟨by norm_num [firstOrderT, calcDT],
   C7_secondOrderP_passthrough (fun _ => 0) 0 0 (by norm_num [firstOrderT, calcDT])⟩

/- ============== MS5607.c : altitude formula (C5) ======================= -/

/-- MS5607.c PtoAlt: gas constant of air (R). -/
def Rconst : Real := 287.057

/-- MS5607.c PtoAlt: acceleration due to gravity (g, m/s^2). -/
def gConst : Real := 9.807

/-- MS5607.c PtoAlt: temperature at sea level (Ts, K). -/
def TsConst : Real := 288.15

/-- MS5607.c PtoAlt: hard-coded pressure at sea level (Ps, mbar). -/
def PsConst : Real := 1008

/-- MS5607.c PtoAlt: pressure-to-altitude conversion of the penultimate
revision, with the hard-coded sea-level pressure constant. -/
noncomputable def PtoAlt (pressure temp : Real) : Real :=
  Rconst / gConst * ((TsConst + temp + 273.15) / 2) * Real.log (PsConst / pressure)

/-- Modelled from the spec: the final-revision MS5607.c body defining
calcAltitude together with setQFF and getQFF is not among the provided
sources (only the MS5607.h declarations and the star.c callers are), so
calcAltitude is modelled from the specification formula, with the write-once
QFF reference passed explicitly as the numerator of the logarithm. -/
noncomputable def calcAltitude (pressure temp qff : Real) : Real :=
  Rconst / gConst * ((TsConst + temp + 273.15) / 2) * Real.log (qff / pressure)

/-- Claim C5: the altitude computed from compensated pressure p (mbar) and
temperature T (deg C) equals (R/g) ((Ts + T + 273.15)/2) ln(QFF/p) with the
fixed constants R, g, Ts, and the numerator of the logarithm is the QFF
reference: the predecessor PtoAlt is exactly calcAltitude with QFF replaced
by the hard-coded 1008 mbar constant. -/
theorem C5_altitude_formula :
    (∀ pressure temp qff : Real,
        calcAltitude pressure temp qff
          = Rconst / gConst * ((TsConst + temp + 273.15) / 2)
              * Real.log (qff / pressure))
    ∧ (∀ pressure temp : Real,
        PtoAlt pressure temp = calcAltitude pressure temp PsConst) :=
  ⟨fun _ _ _ => rfl, fun _ _ => rfl⟩

/- ============== PiSPI.c / MS5607.c : ADC delay (C6) ==================== -/

/-- PiSPI.c SPISetDelay: store a new inter-byte delay in the unsigned short
spiDelay variable (truncated to 16 bits). -/
def SPISetDelay (delay : Nat) : Nat :=
  delay % 65536

/-- PiSPI.c SPIGetDelay: read the current spiDelay value. -/
def SPIGetDelay (spiDelay : Nat) : Nat :=
  spiDelay

/-- The observable behaviour of one altimeterADC call: the inter-byte delay
in effect at each SPIDataRW transfer (with its byte count), and the spiDelay
value left behind. -/
structure ADCRun where
  transfers : List (Nat × Nat)
  finalDelay : Nat
deriving DecidableEq

/-- MS5607.c altimeterADC: save the old delay; set the settling delay chosen
by the low nibble of the command (the oversampling code); send the 1-byte
conversion command; then SPISetDelay(delay) with delay = cmd and 0x0F; send
the 4-byte read; finally restore the saved delay. -/
def altimeterADC (cmd : Nat) (spiDelay0 : Nat) : ADCRun :=
  let delay := cmd % 16
  let delayOld := SPIGetDelay spiDelay0
  let d1 := SPISetDelay (if delay = 0 then 900
    else if delay = 2 then 3000
    else if delay = 4 then 4000
    else if delay = 6 then 6000
    else if delay = 8 then 10000
    else 1000)
  let tr1 := (SPIGetDelay d1, 1)
  let d2 := SPISetDelay delay
  let tr2 := (SPIGetDelay d2, 4)
  let d3 := SPISetDelay delayOld
  ⟨[tr1, tr2], d3⟩

/-- Counterexample to claim C6: for the conversion command 0x18 (D2, OSR
4096) the settling delay 10000 us is in effect only for the 1-byte
conversion transfer; while the multi-byte result is shifted out the delay in
effect is 8 us (the low nibble of the command), not the settling value. -/
theorem C6_read_delay_counterexample :
    (altimeterADC 24 1000).transfers = [(10000, 1), (8, 4)]
    ∧ (8 : Nat) ≠ 10000 := by
  decide

/-- Claim C6 as amended: every altimeterADC call sends the conversion
command with the settling delay appropriate to the requested oversampling
ratio (900 us for OSR 256 up to 10000 us for OSR 4096), but the multi-byte
result is shifted out with the delay set to the low nibble of the command
byte (0 to 8 us); after the operation the delay is restored to exactly the
value it had before the call. -/
theorem C6_adc_delay_discipline (cmd d0 : Nat) (h : d0 < 65536) :
    (altimeterADC cmd d0).transfers =
      [(if cmd % 16 = 0 then 900
        else if cmd % 16 = 2 then 3000
        else if cmd % 16 = 4 then 4000
        else if cmd % 16 = 6 then 6000
        else if cmd % 16 = 8 then 10000
        else 1000, 1),
       (cmd % 16, 4)]
    ∧ (altimeterADC cmd d0).finalDelay = d0 := by
  unfold altimeterADC SPISetDelay SPIGetDelay
  refine ⟨?_, Nat.mod_eq_of_lt h⟩
  have h16 : cmd % 16 % 65536 = cmd % 16 := Nat.mod_eq_of_lt (by omega)
  split_ifs <;> simp_all

/-- Witness for the amended C6 at command 0x18 and prior delay 1000 us. -/
theorem C6_adc_delay_discipline_witness :
    (1000 : Nat) < 65536
    ∧ (altimeterADC 24 1000).transfers = [(10000, 1), (8, 4)]
    ∧ (altimeterADC 24 1000).finalDelay = 1000 :=
  ⟨by decide,
   ((C6_adc_delay_discipline 24 1000 (by decide)).1).trans (by decide),
   (C6_adc_delay_discipline 24 1000 (by decide)).2⟩
